import Mathlib

/-!
Shallow embedding of the "Outreach Window Planner" repository.

Modelling conventions:
* Times are integers: the value of JavaScript `Date.getTime()`, milliseconds
  since the Unix epoch.  The TypeScript code stores ISO 8601 strings in
  `timeRange` and re-parses them with `new Date(...)` before every comparison;
  here `timeRange` holds the parsed instant directly.
* JS numbers used for scores are modelled as rationals.  Every score the code
  can produce is a sum of products from the fixed tables {10, 30, 50} and
  {0.5, 0.75, 1.0}; all of those are dyadic rationals far below 2^53, so IEEE
  double arithmetic computes them exactly and ℚ is a faithful model.
* The TypeScript field `end` is called `stop` here (`end` is a Lean keyword),
  and the field `annotation` of `OutreachWindow` is called `annot`.
-/

namespace Outreach

/-- Signal type categories (types.ts `SignalType`). -/
inductive SignalType
  | sanitation
  | publicEvent
  | shelterHours
  | transitDisruption
  | serviceBottleneck
  | infrastructureWork
  | megaEvent
  | custom
  deriving DecidableEq

/-- Source provenance (types.ts `SourceKind`). -/
inductive SourceKind
  | simulated
  | delayed
  | partnerProvided
  | publicCalendar
  deriving DecidableEq

/-- Impact level for scoring (types.ts `ImpactLevel`). -/
inductive ImpactLevel
  | low
  | medium
  | high
  deriving DecidableEq

/-- Confidence level for scoring (types.ts `ConfidenceLevel`). -/
inductive ConfidenceLevel
  | low
  | medium
  | high
  deriving DecidableEq

/-- Window safety classification (types.ts `WindowStatus`). -/
inductive WindowStatus
  | safer
  | caution
  | avoid
  deriving DecidableEq

/-- A `[start, end)` pair of instants (the `timeRange` object of types.ts,
with `end` renamed to `stop`). -/
structure TimeRange where
  start : Int
  stop : Int
  deriving DecidableEq

/-- Source transparency block of a signal (types.ts `Signal.source`). -/
structure SignalSource where
  label : String
  kind : SourceKind
  lastUpdated : Option Int
  deriving DecidableEq

/-- A temporal signal (types.ts `Signal`). -/
structure Signal where
  id : String
  signalType : SignalType
  title : String
  description : String
  timeRange : TimeRange
  source : SignalSource
  impactLevel : ImpactLevel
  confidenceLevel : ConfidenceLevel
  interpretationNotes : String
  areaContext : Option String
  isCustom : Option Bool
  deriving DecidableEq

/-- An overlap of two disruptive signals (types.ts `SignalOverlap`). -/
structure SignalOverlap where
  id : String
  signals : List Signal
  timeRange : TimeRange
  combinedImpact : ImpactLevel
  explanation : String
  deriving DecidableEq

/-- A scored outreach window (types.ts `OutreachWindow`; the TypeScript field
`annotation` is called `annot` here). -/
structure OutreachWindow where
  id : String
  timeRange : TimeRange
  status : WindowStatus
  score : ℚ
  annot : String
  contributingSignals : List Signal
  deriving DecidableEq

/-! ### Mock signal data (signals.ts)

The data file builds instants from a module-level `now = new Date()` and
`today` (the local midnight of `now`); they are parameters here.  The helpers
`addDays`/`addHours`/`setTime` use JS calendar mutation (`setDate`,
`setHours`); over the midnight-aligned dates the file applies them to, they
amount to the fixed-offset arithmetic below (daylight-saving shifts are not
modelled). -/

/-- signals.ts `addDays`. -/
def addDays (date : Int) (days : Int) : Int := date + days * 86400000

/-- signals.ts `addHours`. -/
def addHours (date : Int) (hours : Int) : Int := date + hours * 3600000

/-- signals.ts `setTime` (sets hours, minutes and zeroes seconds on a
midnight-aligned date; the TypeScript default `minutes = 0` is passed
explicitly). -/
def setTime (date : Int) (hours : Int) (minutes : Int) : Int :=
  date + hours * 3600000 + minutes * 60000

/-- SIMULATED sanitation cycle signals (signals.ts `sanitationSignals`). -/
def sanitationSignals (now today : Int) : List Signal :=
  [ { id := "sanitation-1"
      signalType := SignalType.sanitation
      title := "Street Cleaning - Wilshire Corridor"
      description := "Scheduled street cleaning along Wilshire Blvd between Vermont and Western. Parking restrictions enforced."
      timeRange := { start := setTime (addDays today 0) 8 0, stop := setTime (addDays today 0) 12 0 }
      source := { label := "LA Sanitation (Simulated Pattern)", kind := SourceKind.simulated,
                  lastUpdated := some now }
      impactLevel := ImpactLevel.medium
      confidenceLevel := ConfidenceLevel.medium
      interpretationNotes := "Street cleaning often precedes increased activity. Outreach during this window may face interruptions. Consider timing outreach before or after this period."
      areaContext := some "Koreatown - Wilshire Corridor"
      isCustom := none }
  , { id := "sanitation-2"
      signalType := SignalType.sanitation
      title := "Street Cleaning - 6th Street Area"
      description := "Scheduled street cleaning in residential areas around 6th Street and Serrano."
      timeRange := { start := setTime (addDays today 1) 9 0, stop := setTime (addDays today 1) 13 0 }
      source := { label := "LA Sanitation (Simulated Pattern)", kind := SourceKind.simulated,
                  lastUpdated := none }
      impactLevel := ImpactLevel.medium
      confidenceLevel := ConfidenceLevel.low
      interpretationNotes := "Residential cleaning typically lower impact than commercial corridors. Monitor for changes."
      areaContext := some "Koreatown - Residential"
      isCustom := none }
  , { id := "sanitation-3"
      signalType := SignalType.sanitation
      title := "Street Cleaning - Vermont Ave"
      description := "Weekly street cleaning along Vermont Avenue commercial district."
      timeRange := { start := setTime (addDays today 2) 7 0, stop := setTime (addDays today 2) 11 0 }
      source := { label := "LA Sanitation (Simulated Pattern)", kind := SourceKind.simulated,
                  lastUpdated := none }
      impactLevel := ImpactLevel.high
      confidenceLevel := ConfidenceLevel.medium
      interpretationNotes := "Vermont corridor is high-traffic. Cleaning may coincide with morning service hours at nearby clinics."
      areaContext := some "Koreatown - Vermont Corridor"
      isCustom := none }
  , { id := "sanitation-4"
      signalType := SignalType.sanitation
      title := "Street Cleaning - Olympic Blvd"
      description := "Bi-weekly street cleaning on Olympic Blvd between Normandie and Western."
      timeRange := { start := setTime (addDays today 3) 6 0, stop := setTime (addDays today 3) 10 0 }
      source := { label := "LA Sanitation (Simulated Pattern)", kind := SourceKind.simulated,
                  lastUpdated := none }
      impactLevel := ImpactLevel.medium
      confidenceLevel := ConfidenceLevel.high
      interpretationNotes := "Early morning cleaning. People may need to relocate temporarily. Good opportunity for outreach afterward."
      areaContext := some "Koreatown - Olympic Corridor"
      isCustom := none }
  ]

/-- SIMULATED public event signals (signals.ts `publicEventSignals`). -/
def publicEventSignals (today : Int) : List Signal :=
  [ { id := "event-1"
      signalType := SignalType.publicEvent
      title := "K-Town Night Market"
      description := "Monthly night market event at Robert F. Kennedy Community Schools. High foot traffic expected."
      timeRange := { start := setTime (addDays today 2) 17 0, stop := setTime (addDays today 2) 22 0 }
      source := { label := "Community Calendar (Public)", kind := SourceKind.publicCalendar,
                  lastUpdated := none }
      impactLevel := ImpactLevel.medium
      confidenceLevel := ConfidenceLevel.high
      interpretationNotes := "Community events can be opportunities for resource distribution but may also increase displacement pressure. Coordinate with event organizers if possible."
      areaContext := some "Koreatown"
      isCustom := none }
  , { id := "event-2"
      signalType := SignalType.publicEvent
      title := "Wilshire Center Farmers Market"
      description := "Weekly farmers market. Blocks portion of street parking."
      timeRange := { start := setTime (addDays today 3) 9 0, stop := setTime (addDays today 3) 14 0 }
      source := { label := "Community Calendar (Public)", kind := SourceKind.publicCalendar,
                  lastUpdated := none }
      impactLevel := ImpactLevel.low
      confidenceLevel := ConfidenceLevel.high
      interpretationNotes := "Farmers markets typically low disruption. Some food resources may be available for distribution."
      areaContext := some "Wilshire Center"
      isCustom := none }
  , { id := "event-3"
      signalType := SignalType.publicEvent
      title := "Community Health Fair"
      description := "Free health screenings and resources at MacArthur Park. Partner organizations will be present."
      timeRange := { start := setTime (addDays today 4) 10 0, stop := setTime (addDays today 4) 16 0 }
      source := { label := "Community Calendar (Public)", kind := SourceKind.publicCalendar,
                  lastUpdated := none }
      impactLevel := ImpactLevel.low
      confidenceLevel := ConfidenceLevel.high
      interpretationNotes := "Excellent opportunity for connecting community members with health resources. Coordinate to avoid duplication."
      areaContext := some "MacArthur Park"
      isCustom := none }
  , { id := "event-4"
      signalType := SignalType.publicEvent
      title := "LACMA Free Admission Day"
      description := "Free museum admission draws large crowds to Wilshire/Fairfax area."
      timeRange := { start := setTime (addDays today 5) 11 0, stop := setTime (addDays today 5) 20 0 }
      source := { label := "Community Calendar (Public)", kind := SourceKind.publicCalendar,
                  lastUpdated := none }
      impactLevel := ImpactLevel.low
      confidenceLevel := ConfidenceLevel.high
      interpretationNotes := "Increased pedestrian activity in museum area. Generally positive atmosphere."
      areaContext := some "Miracle Mile"
      isCustom := none }
  ]

/-- SIMULATED shelter and service hour signals (signals.ts `shelterSignals`). -/
def shelterSignals (today : Int) : List Signal :=
  [ { id := "shelter-1"
      signalType := SignalType.shelterHours
      title := "Emergency Shelter Intake Opens"
      description := "Nightly intake window at area emergency shelters. High demand period."
      timeRange := { start := setTime today 17 0, stop := setTime today 20 0 }
      source := { label := "LAHSA Shelter Network (Simulated)", kind := SourceKind.simulated,
                  lastUpdated := none }
      impactLevel := ImpactLevel.low
      confidenceLevel := ConfidenceLevel.high
      interpretationNotes := "Shelter intake is a positive resource window. Outreach can help connect people to beds during this time."
      areaContext := some "Los Angeles - Citywide"
      isCustom := none }
  , { id := "shelter-2"
      signalType := SignalType.shelterHours
      title := "Day Center Services - Union Rescue Mission"
      description := "Day center services including showers, meals, and case management."
      timeRange := { start := setTime (addDays today 0) 8 0, stop := setTime (addDays today 0) 14 0 }
      source := { label := "Partner Services (Simulated)", kind := SourceKind.partnerProvided,
                  lastUpdated := none }
      impactLevel := ImpactLevel.low
      confidenceLevel := ConfidenceLevel.high
      interpretationNotes := "Day centers provide essential services. Consider coordinating outreach to complement rather than compete with these hours."
      areaContext := some "Koreatown Area"
      isCustom := none }
  , { id := "shelter-3"
      signalType := SignalType.shelterHours
      title := "Mobile Shower Unit - Vermont/Wilshire"
      description := "Weekly mobile shower and hygiene services near Metro station."
      timeRange := { start := setTime (addDays today 1) 10 0, stop := setTime (addDays today 1) 15 0 }
      source := { label := "Partner Services (Simulated)", kind := SourceKind.partnerProvided,
                  lastUpdated := none }
      impactLevel := ImpactLevel.low
      confidenceLevel := ConfidenceLevel.high
      interpretationNotes := "Great opportunity for outreach coordination. People gathering for services are more accessible."
      areaContext := some "Koreatown - Vermont/Wilshire"
      isCustom := none }
  , { id := "shelter-4"
      signalType := SignalType.shelterHours
      title := "Hot Meal Service - St. Basil\x27s"
      description := "Daily hot meal service at church community center."
      timeRange := { start := setTime (addDays today 0) 11 0, stop := setTime (addDays today 0) 13 0 }
      source := { label := "Partner Services (Simulated)", kind := SourceKind.partnerProvided,
                  lastUpdated := none }
      impactLevel := ImpactLevel.low
      confidenceLevel := ConfidenceLevel.high
      interpretationNotes := "Meal times are predictable gathering points. Excellent for resource distribution and relationship building."
      areaContext := some "Koreatown - Wilshire"
      isCustom := none }
  ]

/-- SIMULATED transit disruption signals (signals.ts `transitSignals`). -/
def transitSignals (today : Int) : List Signal :=
  [ { id := "transit-1"
      signalType := SignalType.transitDisruption
      title := "Metro Purple Line Construction"
      description := "Ongoing construction at Wilshire/Western station. Reduced service and street closures."
      timeRange := { start := setTime today 0 0, stop := setTime (addDays today 7) 23 59 }
      source := { label := "LA Metro (Public)", kind := SourceKind.publicCalendar,
                  lastUpdated := none }
      impactLevel := ImpactLevel.medium
      confidenceLevel := ConfidenceLevel.high
      interpretationNotes := "Construction zones can complicate access for both outreach teams and community members. Plan alternative routes."
      areaContext := some "Koreatown - Wilshire/Western"
      isCustom := none }
  , { id := "transit-2"
      signalType := SignalType.transitDisruption
      title := "Bus Reroute - Vermont Line"
      description := "Temporary bus reroute due to utility work. Stops relocated."
      timeRange := { start := setTime (addDays today 2) 6 0, stop := setTime (addDays today 2) 18 0 }
      source := { label := "LA Metro (Simulated)", kind := SourceKind.simulated,
                  lastUpdated := none }
      impactLevel := ImpactLevel.low
      confidenceLevel := ConfidenceLevel.medium
      interpretationNotes := "Minor disruption. Some community members may be displaced from usual transit stops."
      areaContext := some "Vermont Corridor"
      isCustom := none }
  ]

/-- SIMULATED service bottleneck signals (signals.ts `serviceBottleneckSignals`). -/
def serviceBottleneckSignals (today : Int) : List Signal :=
  [ { id := "bottleneck-1"
      signalType := SignalType.serviceBottleneck
      title := "Benefits Office High Volume"
      description := "First week of month typically sees high volume at DPSS offices."
      timeRange := { start := setTime (addDays today 0) 8 0, stop := setTime (addDays today 3) 17 0 }
      source := { label := "Service Provider Network (Simulated)", kind := SourceKind.simulated,
                  lastUpdated := none }
      impactLevel := ImpactLevel.medium
      confidenceLevel := ConfidenceLevel.medium
      interpretationNotes := "High volume periods at benefits offices mean longer waits. Outreach can help with paperwork prep beforehand."
      areaContext := some "Los Angeles - Multiple Locations"
      isCustom := none }
  ]

/-- SIMULATED infrastructure signals (signals.ts `infrastructureSignals`). -/
def infrastructureSignals (today : Int) : List Signal :=
  [ { id := "infra-1"
      signalType := SignalType.infrastructureWork
      title := "Water Main Repair"
      description := "Emergency water main repair. Street closure and reduced pedestrian access."
      timeRange := { start := setTime (addDays today 1) 7 0, stop := setTime (addDays today 1) 19 0 }
      source := { label := "LADWP (Simulated)", kind := SourceKind.simulated,
                  lastUpdated := none }
      impactLevel := ImpactLevel.medium
      confidenceLevel := ConfidenceLevel.low
      interpretationNotes := "Infrastructure work can cause temporary displacement and access issues. Confirm completion before planning outreach in area."
      areaContext := some "Koreatown - 8th Street"
      isCustom := none }
  ]

/-- SCENARIO MODE mega-event signals (signals.ts `megaEventSignals`). -/
def megaEventSignals (today : Int) : List Signal :=
  [ { id := "mega-1"
      signalType := SignalType.megaEvent
      title := "[SCENARIO] Olympics Opening Week"
      description := "SPECULATIVE: Simulated increased activity during Olympics opening ceremonies. Expect heightened security presence and potential displacement pressure."
      timeRange := { start := setTime (addDays today 14) 0 0, stop := setTime (addDays today 21) 23 59 }
      source := { label := "Scenario Simulation (Speculative)", kind := SourceKind.simulated,
                  lastUpdated := none }
      impactLevel := ImpactLevel.high
      confidenceLevel := ConfidenceLevel.low
      interpretationNotes := "SCENARIO MODE: This signal represents potential conditions during a mega-event. Actual impacts will vary. Use for planning exercises only."
      areaContext := some "Los Angeles - Citywide"
      isCustom := none }
  , { id := "mega-2"
      signalType := SignalType.megaEvent
      title := "[SCENARIO] Transit Surge Period"
      description := "SPECULATIVE: Simulated transit system at capacity. Metro stations may have restricted access."
      timeRange := { start := setTime (addDays today 15) 6 0, stop := setTime (addDays today 15) 22 0 }
      source := { label := "Scenario Simulation (Speculative)", kind := SourceKind.simulated,
                  lastUpdated := none }
      impactLevel := ImpactLevel.high
      confidenceLevel := ConfidenceLevel.low
      interpretationNotes := "SCENARIO MODE: Transit hubs near K-Town (Wilshire/Vermont, Wilshire/Western) may see increased security. Plan alternative meeting points."
      areaContext := some "Koreatown - Transit Hubs"
      isCustom := none }
  , { id := "mega-3"
      signalType := SignalType.megaEvent
      title := "[SCENARIO] Venue Buffer Zones"
      description := "SPECULATIVE: Security perimeters around event venues may expand, affecting nearby areas."
      timeRange := { start := setTime (addDays today 14) 0 0, stop := setTime (addDays today 28) 23 59 }
      source := { label := "Scenario Simulation (Speculative)", kind := SourceKind.simulated,
                  lastUpdated := none }
      impactLevel := ImpactLevel.high
      confidenceLevel := ConfidenceLevel.low
      interpretationNotes := "SCENARIO MODE: Buffer zones around venues historically cause displacement. This is speculative planning for potential 2028 conditions."
      areaContext := some "Los Angeles - Venue Adjacent"
      isCustom := none }
  ]

/-- All base signals, without scenario mode (signals.ts `getBaseSignals`). -/
def getBaseSignals (now today : Int) : List Signal :=
  sanitationSignals now today ++
  publicEventSignals today ++
  shelterSignals today ++
  transitSignals today ++
  serviceBottleneckSignals today ++
  infrastructureSignals today

/-- Signals with optional scenario mode (signals.ts `getAllSignals`; the
TypeScript default `includeScenario = false` is passed explicitly). -/
def getAllSignals (now today : Int) (includeScenario : Bool) : List Signal :=
  let base := getBaseSignals now today
  if includeScenario then
    base ++ megaEventSignals today
  else
    base

/-- Filter signals by date range (signals.ts `filterSignalsByDateRange`):
inclusive comparisons on both sides. -/
def filterSignalsByDateRange (signals : List Signal) (start stop : Int) : List Signal :=
  signals.filter fun signal =>
    decide (signal.timeRange.start ≤ stop ∧ signal.timeRange.stop ≥ start)

/-! ### Windowing engine (windowing.ts) -/

/-- Scoring weights (windowing.ts `IMPACT_WEIGHTS`). -/
def IMPACT_WEIGHTS : ImpactLevel → ℚ
  | ImpactLevel.low => 10
  | ImpactLevel.medium => 30
  | ImpactLevel.high => 50

/-- Confidence multipliers (windowing.ts `CONFIDENCE_MULTIPLIERS`). -/
def CONFIDENCE_MULTIPLIERS : ConfidenceLevel → ℚ
  | ConfidenceLevel.low => 0.5
  | ConfidenceLevel.medium => 0.75
  | ConfidenceLevel.high => 1.0

/-- Window status thresholds (windowing.ts `STATUS_THRESHOLDS`). -/
structure StatusThresholds where
  safer : ℚ
  caution : ℚ

/-- The threshold record: score 0-20 safer, 21-50 caution, above 50 avoid. -/
def STATUS_THRESHOLDS : StatusThresholds :=
  { safer := 20, caution := 50 }

/-- Default window duration in milliseconds, 2 hours
(windowing.ts `DEFAULT_WINDOW_DURATION_MS`). -/
def DEFAULT_WINDOW_DURATION_MS : Int := 2 * 60 * 60 * 1000

/-- Disruption score of a single signal (windowing.ts `computeSignalScore`). -/
def computeSignalScore (signal : Signal) : ℚ :=
  IMPACT_WEIGHTS signal.impactLevel * CONFIDENCE_MULTIPLIERS signal.confidenceLevel

/-- Signals overlapping a window (windowing.ts `findOverlaps`): strict
comparisons on both sides. -/
def findOverlaps (signals : List Signal) (windowStart windowEnd : Int) : List Signal :=
  signals.filter fun signal =>
    decide (signal.timeRange.start < windowEnd ∧ signal.timeRange.stop > windowStart)

/-- Explanation text for a window (windowing.ts `generateAnnotation`). -/
def generateAnnot (overlappingSignals : List Signal) (status : WindowStatus) : String :=
  if overlappingSignals.length = 0 then
    "No known disruptions during this window. Good opportunity for outreach."
  else
    let highImpact := overlappingSignals.filter fun s => decide (s.impactLevel = ImpactLevel.high)
    let mediumImpact := overlappingSignals.filter fun s => decide (s.impactLevel = ImpactLevel.medium)
    let parts : List String :=
      (if highImpact.length > 0 then
        [toString highImpact.length ++ " high-impact signal(s): " ++
          String.intercalate ", " (highImpact.map Signal.title)]
      else []) ++
      (if mediumImpact.length > 0 then
        [toString mediumImpact.length ++ " medium-impact signal(s)"]
      else []) ++
      (let lowImpactCount := overlappingSignals.length - highImpact.length - mediumImpact.length
       if lowImpactCount > 0 then
        [toString lowImpactCount ++ " low-impact signal(s)"]
       else [])
    match status with
    | WindowStatus.safer =>
        "Minor activity: " ++ String.intercalate "; " parts ++
          ". Generally safe for outreach with awareness."
    | WindowStatus.caution =>
        "Moderate disruption: " ++ String.intercalate "; " parts ++
          ". Proceed with flexibility and backup plans."
    | WindowStatus.avoid =>
        "High disruption: " ++ String.intercalate "; " parts ++
          ". Consider rescheduling if possible."

/-- Window status from a score (windowing.ts `getStatusFromScore`). -/
def getStatusFromScore (score : ℚ) : WindowStatus :=
  if score ≤ STATUS_THRESHOLDS.safer then WindowStatus.safer
  else if score ≤ STATUS_THRESHOLDS.caution then WindowStatus.caution
  else WindowStatus.avoid

/-- One iteration of the `while` loop body of windowing.ts `computeWindows`:
the window pushed for `[currentStart, currentEnd)` at index `windowIndex`. -/
def mkWindow (signals : List Signal) (windowIndex : Nat)
    (currentStart currentEnd : Int) : OutreachWindow :=
  let overlapping := findOverlaps signals currentStart currentEnd
  let rawScore := overlapping.foldl (fun sum signal => sum + computeSignalScore signal) 0
  let score := min 100 rawScore
  let status := getStatusFromScore score
  { id := "window-" ++ toString windowIndex
    timeRange := { start := currentStart, stop := currentEnd }
    status := status
    score := score
    annot := generateAnnot overlapping status
    contributingSignals := overlapping }

/-- The `while` loop of windowing.ts `computeWindows`.  The TypeScript loop
does not terminate when `windowDurationMs ≤ 0` (then `currentEnd ≤
currentStart` and the loop never advances past `rangeEnd`); the guard
`0 < windowDurationMs` makes the model total, returning `[]` in that case,
where the source produces no list at all. -/
def computeWindowsAux (signals : List Signal) (rangeEnd windowDurationMs : Int)
    (currentStart : Int) (windowIndex : Nat) : List OutreachWindow :=
  if h : currentStart < rangeEnd ∧ 0 < windowDurationMs then
    mkWindow signals windowIndex currentStart (min (currentStart + windowDurationMs) rangeEnd) ::
      computeWindowsAux signals rangeEnd windowDurationMs
        (min (currentStart + windowDurationMs) rangeEnd) (windowIndex + 1)
  else []
termination_by (rangeEnd - currentStart).toNat
decreasing_by
  rcases le_total (currentStart + windowDurationMs) rangeEnd with h1 | h1
  · rw [min_eq_left h1]; omega
  · rw [min_eq_right h1]; omega

/-- Slice a date range into fixed windows and score each one
(windowing.ts `computeWindows`).  The TypeScript default argument
`windowDurationMs = DEFAULT_WINDOW_DURATION_MS` is passed explicitly by
callers of this model. -/
def computeWindows (signals : List Signal) (rangeStart rangeEnd : Int)
    (windowDurationMs : Int) : List OutreachWindow :=
  computeWindowsAux signals rangeEnd windowDurationMs rangeStart 0

/-- Plain-language description of a signal type
(windowing.ts `generateOverlapExplanation`, `typeDescriptions` table; the
`|| signalA.signalType` fallback is unreachable because every `SignalType`
has an entry). -/
def typeDescription : SignalType → String
  | SignalType.sanitation => "sanitation activity"
  | SignalType.publicEvent => "public event"
  | SignalType.shelterHours => "shelter service hours"
  | SignalType.transitDisruption => "transit disruption"
  | SignalType.serviceBottleneck => "service bottleneck"
  | SignalType.infrastructureWork => "infrastructure work"
  | SignalType.megaEvent => "major event"
  | SignalType.custom => "planned activity"

/-- Why an overlap matters (windowing.ts `generateOverlapExplanation`). -/
def generateOverlapExplanation (signalA signalB : Signal) : String :=
  signalA.title ++ " (" ++ typeDescription signalA.signalType ++ ") overlaps with " ++
    signalB.title ++ " (" ++ typeDescription signalB.signalType ++ "). " ++
    "Multiple disruptions increase unpredictability. Consider alternative windows or enhanced coordination."

/-- The body of the inner `for` loop of windowing.ts `detectSignalOverlaps`:
the overlap record pushed for the pair `(signalA, signalB)` when their time
ranges intersect, `none` otherwise. -/
def checkPair (signalA signalB : Signal) : Option SignalOverlap :=
  let startA := signalA.timeRange.start
  let endA := signalA.timeRange.stop
  let startB := signalB.timeRange.start
  let endB := signalB.timeRange.stop
  if startA < endB ∧ endA > startB then
    some { id := "overlap-" ++ signalA.id ++ "-" ++ signalB.id
           signals := [signalA, signalB]
           timeRange := { start := max startA startB, stop := min endA endB }
           combinedImpact :=
             if signalA.impactLevel = ImpactLevel.high ∨ signalB.impactLevel = ImpactLevel.high
             then ImpactLevel.high else ImpactLevel.medium
           explanation := generateOverlapExplanation signalA signalB }
  else none

/-- The nested `for i / for j in (i, length)` loops of windowing.ts
`detectSignalOverlaps`, iterating over each position `i` (head) paired with
every later position `j` (the remaining list), in loop order. -/
def detectLoop : List Signal → List SignalOverlap
  | [] => []
  | a :: rest => rest.filterMap (checkPair a) ++ detectLoop rest

/-- Detect pairwise overlaps among medium/high impact signals
(windowing.ts `detectSignalOverlaps`). -/
def detectSignalOverlaps (signals : List Signal) : List SignalOverlap :=
  let significantSignals := signals.filter fun s =>
    decide (s.impactLevel = ImpactLevel.medium ∨ s.impactLevel = ImpactLevel.high)
  detectLoop significantSignals

/-! ### GET /api/signals route (app/api/signals/route.ts)

A query parameter is `Option String` in the request; `new Date(string)`
either yields a valid instant or an Invalid Date (`NaN`).  The route only
inspects the parsed result, so a date parameter is modelled as
`Option (Option Int)`: `none` = parameter absent, `some none` = present but
not parseable, `some (some t)` = parses to instant `t`.  The ISO string
parser itself is a JS builtin, not code of this repository. -/

/-- The response `meta` object (types.ts `SignalsApiResponse.meta`). -/
structure ResponseMeta where
  queryRange : TimeRange
  scenarioMode : Bool
  generatedAt : Int
  disclaimer : String
  deriving DecidableEq

/-- The 200 response body (types.ts `SignalsApiResponse`). -/
structure SignalsApiResponse where
  signals : List Signal
  overlaps : List SignalOverlap
  windows : List OutreachWindow
  meta : ResponseMeta
  deriving DecidableEq

/-- Outcome of the route handler: `NextResponse.json` with an HTTP status. -/
inductive ApiResult
  | error (status : Nat) (message : String)
  | ok (status : Nat) (response : SignalsApiResponse)
  deriving DecidableEq

/-- route.ts: `const start = startParam ? new Date(startParam) : now`. -/
def routeStart (now : Int) (startParam : Option (Option Int)) : Option Int :=
  match startParam with
  | none => some now
  | some v => v

/-- route.ts: `const end = endParam ? new Date(endParam) : new
Date(start.getTime() + 7 * 24 * 60 * 60 * 1000)` (adding to `NaN` stays
`NaN`). -/
def routeEnd (start : Option Int) (endParam : Option (Option Int)) : Option Int :=
  match endParam with
  | some v => v
  | none => start.map fun t => t + 7 * 24 * 60 * 60 * 1000

/-- The mandatory disclaimer string of route.ts. -/
def DISCLAIMER : String :=
  "PROTOTYPE DATA: All signals are simulated or based on delayed/public information. " ++
  "This tool does not provide real-time data, enforcement information, or individual tracking. " ++
  "Use for organizational planning purposes only. Verify conditions before outreach activities."

/-- The GET handler of route.ts.  `now`/`today` are the mock-data module
instants and `generatedNow` the `new Date()` taken while building the
response. -/
def GET (now today generatedNow : Int) (startParam endParam : Option (Option Int))
    (scenarioParam : Option String) : ApiResult :=
  let start := routeStart now startParam
  let stop := routeEnd start endParam
  let includeScenario := decide (scenarioParam = some "on")
  match start, stop with
  | some s, some e =>
    if e ≤ s then
      ApiResult.error 400 "End date must be after start date."
    else
      let allSignals := getAllSignals now today includeScenario
      let filteredSignals := filterSignalsByDateRange allSignals s e
      let windows := computeWindows filteredSignals s e DEFAULT_WINDOW_DURATION_MS
      let overlaps := detectSignalOverlaps filteredSignals
      ApiResult.ok 200
        { signals := filteredSignals
          overlaps := overlaps
          windows := windows
          meta := { queryRange := { start := s, stop := e }
                    scenarioMode := includeScenario
                    generatedAt := generatedNow
                    disclaimer := DISCLAIMER } }
  | _, _ => ApiResult.error 400 "Invalid date format. Use ISO 8601 format."

/-! ### Helper lemmas -/

/-- Unfolding lemma for the loop when the guard holds. -/
theorem computeWindowsAux_pos {signals : List Signal} {re d cs : Int} {i : Nat}
    (h1 : cs < re) (h2 : 0 < d) :
    computeWindowsAux signals re d cs i =
      mkWindow signals i cs (min (cs + d) re) ::
        computeWindowsAux signals re d (min (cs + d) re) (i + 1) := by
  rw [computeWindowsAux]
  simp [h1, h2]

/-- Unfolding lemma for the loop when the guard fails. -/
theorem computeWindowsAux_neg {signals : List Signal} {re d cs : Int} {i : Nat}
    (h : ¬(cs < re ∧ 0 < d)) :
    computeWindowsAux signals re d cs i = [] := by
  rw [computeWindowsAux]
  simp [h]

/-- Every window the loop emits is the loop body applied to some start
instant `s` in `[cs, re)`. -/
theorem mem_computeWindowsAux {signals : List Signal} {re d : Int} :
    ∀ {cs : Int} {i : Nat} {w : OutreachWindow},
      w ∈ computeWindowsAux signals re d cs i →
      ∃ j s, cs ≤ s ∧ s < re ∧ 0 < d ∧ w = mkWindow signals j s (min (s + d) re) := by
  intro cs i
  induction cs, i using computeWindowsAux.induct signals re d with
  | case1 cs i h ih =>
      intro w hw
      rw [computeWindowsAux_pos h.1 h.2] at hw
      rcases List.mem_cons.mp hw with hw | hw
      · exact ⟨i, cs, le_refl cs, h.1, h.2, hw⟩
      · obtain ⟨j, s, hs1, hs2, hs3, hs4⟩ := ih hw
        refine ⟨j, s, ?_, hs2, hs3, hs4⟩
        have : cs ≤ min (cs + d) re := le_min (by omega) (le_of_lt h.1)
        omega
  | case2 cs i h =>
      intro w hw
      rw [computeWindowsAux_neg h] at hw
      simp at hw

/-- Projections of the loop body. -/
theorem mkWindow_timeRange (signals : List Signal) (i : Nat) (s e : Int) :
    (mkWindow signals i s e).timeRange = { start := s, stop := e } := rfl

/-- The loop body's contributing signals are the window's overlaps. -/
theorem mkWindow_contributingSignals (signals : List Signal) (i : Nat) (s e : Int) :
    (mkWindow signals i s e).contributingSignals = findOverlaps signals s e := rfl

/-- The loop body's score. -/
theorem mkWindow_score (signals : List Signal) (i : Nat) (s e : Int) :
    (mkWindow signals i s e).score =
      min 100 ((findOverlaps signals s e).foldl
        (fun sum signal => sum + computeSignalScore signal) 0) := rfl

/-- The loop body's status. -/
theorem mkWindow_status (signals : List Signal) (i : Nat) (s e : Int) :
    (mkWindow signals i s e).status = getStatusFromScore (mkWindow signals i s e).score := rfl

/-- The loop body's annotation text. -/
theorem mkWindow_annot (signals : List Signal) (i : Nat) (s e : Int) :
    (mkWindow signals i s e).annot =
      generateAnnot (findOverlaps signals s e) (mkWindow signals i s e).status := rfl

/-- The score fold is the sum of the individual signal scores. -/
theorem foldl_score_eq_sum (l : List Signal) (init : ℚ) :
    l.foldl (fun sum signal => sum + computeSignalScore signal) init
      = init + (l.map computeSignalScore).sum := by
  induction l generalizing init with
  | nil => simp
  | cons a t ih =>
      simp only [List.foldl_cons, List.map_cons, List.sum_cons, ih (init + computeSignalScore a)]
      ring

/-- Each signal contributes a nonnegative score. -/
theorem computeSignalScore_nonneg (s : Signal) : 0 ≤ computeSignalScore s := by
  unfold computeSignalScore
  cases s.impactLevel <;> cases s.confidenceLevel <;>
    simp [IMPACT_WEIGHTS, CONFIDENCE_MULTIPLIERS] <;> norm_num

/-- `getStatusFromScore` returns `safer` exactly on scores at most 20. -/
theorem getStatusFromScore_safer_iff (x : ℚ) :
    getStatusFromScore x = WindowStatus.safer ↔ x ≤ 20 := by
  unfold getStatusFromScore STATUS_THRESHOLDS
  split_ifs with h1 h2 <;> simp_all

/-- `getStatusFromScore` returns `caution` exactly on scores in (20, 50]. -/
theorem getStatusFromScore_caution_iff (x : ℚ) :
    getStatusFromScore x = WindowStatus.caution ↔ 20 < x ∧ x ≤ 50 := by
  unfold getStatusFromScore STATUS_THRESHOLDS
  split_ifs with h1 h2 <;> simp_all

/-- `getStatusFromScore` returns `avoid` exactly on scores above 50. -/
theorem getStatusFromScore_avoid_iff (x : ℚ) :
    getStatusFromScore x = WindowStatus.avoid ↔ 50 < x := by
  unfold getStatusFromScore STATUS_THRESHOLDS
  split_ifs with h1 h2 <;> simp_all
  linarith

/-- Head of the loop output when at least one window is produced. -/
theorem head?_computeWindowsAux {signals : List Signal} {re d cs : Int} {i : Nat}
    (h1 : cs < re) (h2 : 0 < d) :
    (computeWindowsAux signals re d cs i).head? =
      some (mkWindow signals i cs (min (cs + d) re)) := by
  rw [computeWindowsAux_pos h1 h2]; rfl

/-- Consecutive windows are adjacent: each window's end is the next start. -/
theorem chain'_computeWindowsAux (signals : List Signal) (re d : Int) :
    ∀ (cs : Int) (i : Nat),
      List.Chain' (fun a b => a.timeRange.stop = b.timeRange.start)
        (computeWindowsAux signals re d cs i) := by
  intro cs i
  induction cs, i using computeWindowsAux.induct signals re d with
  | case1 cs i h ih =>
      rw [computeWindowsAux_pos h.1 h.2, List.chain'_cons']
      refine ⟨?_, ih⟩
      intro y hy
      by_cases hce : min (cs + d) re < re
      · rw [head?_computeWindowsAux hce h.2] at hy
        simp only [Option.mem_def, Option.some.injEq] at hy
        subst hy
        simp [mkWindow_timeRange]
      · rw [computeWindowsAux_neg (by tauto)] at hy
        simp at hy
  | case2 cs i h =>
      rw [computeWindowsAux_neg h]
      exact List.chain'_nil

/-- The last window produced ends exactly at `re`. -/
theorem getLast?_computeWindowsAux (signals : List Signal) (re d : Int) :
    ∀ (cs : Int) (i : Nat), cs < re → 0 < d →
      ((computeWindowsAux signals re d cs i).getLast?.map fun w => w.timeRange.stop)
        = some re := by
  intro cs i
  induction cs, i using computeWindowsAux.induct signals re d with
  | case1 cs i h ih =>
      intro _ _
      rw [computeWindowsAux_pos h.1 h.2]
      by_cases hce : min (cs + d) re < re
      · have htail := ih hce h.2
        rcases h3 : computeWindowsAux signals re d (min (cs + d) re) (i + 1) with _ | ⟨w, rest⟩
        · rw [computeWindowsAux_pos hce h.2] at h3
          exact absurd h3 (List.cons_ne_nil _ _)
        · rw [h3] at htail
          rw [List.getLast?_cons_cons]
          exact htail
      · rw [computeWindowsAux_neg (by tauto)]
        have hmin : min (cs + d) re = re := le_antisymm (min_le_right _ _) (not_lt.mp hce)
        simp [mkWindow_timeRange, hmin]
  | case2 cs i h =>
      intro hcs hd
      exact absurd ⟨hcs, hd⟩ h

/-- Windows are produced in nondecreasing order and never overlap. -/
theorem pairwise_computeWindowsAux (signals : List Signal) (re d : Int) :
    ∀ (cs : Int) (i : Nat),
      List.Pairwise (fun a b => a.timeRange.stop ≤ b.timeRange.start)
        (computeWindowsAux signals re d cs i) := by
  intro cs i
  induction cs, i using computeWindowsAux.induct signals re d with
  | case1 cs i h ih =>
      rw [computeWindowsAux_pos h.1 h.2]
      refine List.Pairwise.cons ?_ ih
      intro b hb
      obtain ⟨j, s, hs1, _, _, rfl⟩ := mem_computeWindowsAux hb
      simpa [mkWindow_timeRange] using hs1
  | case2 cs i h =>
      rw [computeWindowsAux_neg h]
      exact List.Pairwise.nil

/-! ### Pair enumeration for the overlap detector -/

/-- Claim-side rendering of "one overlap for each unordered pair of distinct
signals": enumerate positions and keep exactly the index pairs `i < j`. -/
def pairsSpec (l : List Signal) : List SignalOverlap :=
  l.enum.flatMap fun ia =>
    l.enum.filterMap fun jb =>
      if ia.1 < jb.1 then checkPair ia.2 jb.2 else none

/-- Indices in `enumFrom n` are at least `n`. -/
theorem le_fst_of_mem_enumFrom {α : Type} :
    ∀ {n : Nat} {l : List α} {p : Nat × α}, p ∈ List.enumFrom n l → n ≤ p.1 := by
  intro n l
  induction l generalizing n with
  | nil => intro p hp; simp at hp
  | cons a t ih =>
      intro p hp
      rw [List.enumFrom_cons] at hp
      rcases List.mem_cons.mp hp with hp | hp
      · subst hp; exact le_refl n
      · exact le_trans (Nat.le_succ n) (ih hp)

/-- Filtering an enumeration on the payload ignores the indices. -/
theorem filterMap_snd_enumFrom {α β : Type} :
    ∀ (n : Nat) (l : List α) (g : α → Option β),
      (List.enumFrom n l).filterMap (fun p => g p.2) = l.filterMap g := by
  intro n l
  induction l generalizing n with
  | nil => intro g; rfl
  | cons a t ih =>
      intro g
      rw [List.enumFrom_cons, List.filterMap_cons, List.filterMap_cons]
      cases g a <;> simp [ih]

/-- The nested loops of `detectSignalOverlaps` enumerate exactly the index
pairs `i < j`, whatever the starting index of the enumeration. -/
theorem detectLoop_eq_enumFrom (l : List Signal) :
    ∀ n : Nat, detectLoop l =
      (List.enumFrom n l).flatMap fun ia =>
        (List.enumFrom n l).filterMap fun jb =>
          if ia.1 < jb.1 then checkPair ia.2 jb.2 else none := by
  induction l with
  | nil => intro n; rfl
  | cons a t ih =>
      intro n
      rw [List.enumFrom_cons, List.flatMap_cons]
      have hrow : ((n, a) :: List.enumFrom (n + 1) t).filterMap
          (fun jb => if (n, a).1 < jb.1 then checkPair (n, a).2 jb.2 else none)
            = t.filterMap (checkPair a) := by
        rw [List.filterMap_cons]
        simp only [lt_self_iff_false, if_false]
        rw [List.filterMap_congr (g := fun p => checkPair a p.2) ?_]
        · exact filterMap_snd_enumFrom (n + 1) t (checkPair a)
        · intro jb hjb
          have := le_fst_of_mem_enumFrom hjb
          simp only []
          rw [if_pos (by omega)]
      have hrest : (List.enumFrom (n + 1) t).flatMap
          (fun ia => ((n, a) :: List.enumFrom (n + 1) t).filterMap
            fun jb => if ia.1 < jb.1 then checkPair ia.2 jb.2 else none)
          = detectLoop t := by
        rw [List.flatMap_congr (g := fun ia => (List.enumFrom (n + 1) t).filterMap
            fun jb => if ia.1 < jb.1 then checkPair ia.2 jb.2 else none) ?_]
        · exact (ih (n + 1)).symm
        · intro ia hia
          have := le_fst_of_mem_enumFrom hia
          rw [List.filterMap_cons]
          simp only []
          rw [if_neg (by omega)]
      rw [hrow, hrest, detectLoop]

/-- The loop output is exactly the pair enumeration. -/
theorem detectLoop_eq_pairsSpec (l : List Signal) : detectLoop l = pairsSpec l :=
  detectLoop_eq_enumFrom l 0

/-- Every produced overlap comes from some pair of input signals accepted by
`checkPair`. -/
theorem mem_detectLoop {l : List Signal} {o : SignalOverlap}
    (ho : o ∈ detectLoop l) : ∃ a b, a ∈ l ∧ b ∈ l ∧ checkPair a b = some o := by
  induction l with
  | nil => simp [detectLoop] at ho
  | cons x t ih =>
      rw [detectLoop] at ho
      rcases List.mem_append.mp ho with ho | ho
      · obtain ⟨b, hb, hchk⟩ := List.mem_filterMap.mp ho
        exact ⟨x, b, List.mem_cons_self x t, List.mem_cons_of_mem x hb, hchk⟩
      · obtain ⟨a, b, ha, hb, hchk⟩ := ih ho
        exact ⟨a, b, List.mem_cons_of_mem x ha, List.mem_cons_of_mem x hb, hchk⟩

/-- Contents of a produced overlap record. -/
theorem checkPair_eq_some {a b : Signal} {o : SignalOverlap}
    (h : checkPair a b = some o) :
    a.timeRange.start < b.timeRange.stop ∧ b.timeRange.start < a.timeRange.stop ∧
    o.timeRange.start = max a.timeRange.start b.timeRange.start ∧
    o.timeRange.stop = min a.timeRange.stop b.timeRange.stop ∧
    o.combinedImpact = (if a.impactLevel = ImpactLevel.high ∨ b.impactLevel = ImpactLevel.high
      then ImpactLevel.high else ImpactLevel.medium) ∧
    o.signals = [a, b] := by
  simp only [checkPair] at h
  by_cases hcond : a.timeRange.start < b.timeRange.stop ∧ b.timeRange.start < a.timeRange.stop
  · rw [if_pos hcond] at h
    have hrec := Option.some.inj h
    subst hrec
    exact ⟨hcond.1, hcond.2, rfl, rfl, rfl, rfl⟩
  · rw [if_neg hcond] at h
    simp at h

/-! ### Annotation characterization -/

/-- Claim-side: status-dependent opening of a non-empty annotation. -/
def claimStatusHead : WindowStatus → String
  | WindowStatus.safer => "Minor activity: "
  | WindowStatus.caution => "Moderate disruption: "
  | WindowStatus.avoid => "High disruption: "

/-- Claim-side: status-dependent closing of a non-empty annotation. -/
def claimStatusTail : WindowStatus → String
  | WindowStatus.safer => ". Generally safe for outreach with awareness."
  | WindowStatus.caution => ". Proceed with flexibility and backup plans."
  | WindowStatus.avoid => ". Consider rescheduling if possible."

/-- Claim-side: the body parts list the counts of high-, medium- and
low-impact contributing signals (the low count as an actual count of
low-impact signals, where the code subtracts the other two from the
total). -/
def claimParts (overlapping : List Signal) : List String :=
  let high := overlapping.filter fun s => decide (s.impactLevel = ImpactLevel.high)
  let med := overlapping.filter fun s => decide (s.impactLevel = ImpactLevel.medium)
  let low := overlapping.filter fun s => decide (s.impactLevel = ImpactLevel.low)
  (if high.length > 0 then
    [toString high.length ++ " high-impact signal(s): " ++
      String.intercalate ", " (high.map Signal.title)]
   else []) ++
  (if med.length > 0 then [toString med.length ++ " medium-impact signal(s)"] else []) ++
  (if low.length > 0 then [toString low.length ++ " low-impact signal(s)"] else [])

/-- The impact levels partition a signal list. -/
theorem length_eq_impact_counts (l : List Signal) :
    l.length = (l.filter fun s => decide (s.impactLevel = ImpactLevel.high)).length
      + (l.filter fun s => decide (s.impactLevel = ImpactLevel.medium)).length
      + (l.filter fun s => decide (s.impactLevel = ImpactLevel.low)).length := by
  induction l with
  | nil => rfl
  | cons a t ih =>
      cases h : a.impactLevel <;>
        simp [List.filter_cons, h, List.length_cons, ih] <;> omega

/-- The empty-overlap annotation. -/
theorem generateAnnot_nil (status : WindowStatus) :
    generateAnnot [] status =
      "No known disruptions during this window. Good opportunity for outreach." := rfl

/-- A non-empty annotation is the status head, the count parts, and the
status tail. -/
theorem generateAnnot_ne_nil (overlapping : List Signal) (status : WindowStatus)
    (h : overlapping ≠ []) :
    generateAnnot overlapping status =
      claimStatusHead status ++ String.intercalate "; " (claimParts overlapping) ++
        claimStatusTail status := by
  have hlen : overlapping.length ≠ 0 := by
    simpa [List.length_eq_zero] using h
  unfold generateAnnot claimParts
  rw [if_neg hlen]
  have hlow : overlapping.length
      - (overlapping.filter fun s => decide (s.impactLevel = ImpactLevel.high)).length
      - (overlapping.filter fun s => decide (s.impactLevel = ImpactLevel.medium)).length
      = (overlapping.filter fun s => decide (s.impactLevel = ImpactLevel.low)).length := by
    have := length_eq_impact_counts overlapping
    omega
  cases status <;> simp [claimStatusHead, claimStatusTail, hlow]

/-! ### Concrete instances for instantiating the theorems -/

/-- A concrete signal with the given id, time range and scoring levels. -/
def testSignal (sid : String) (startT stopT : Int) (impact : ImpactLevel)
    (confidence : ConfidenceLevel) : Signal :=
  { id := sid
    signalType := SignalType.custom
    title := sid
    description := ""
    timeRange := { start := startT, stop := stopT }
    source := { label := "", kind := SourceKind.simulated, lastUpdated := none }
    impactLevel := impact
    confidenceLevel := confidence
    interpretationNotes := ""
    areaContext := none
    isCustom := none }

/-- Concrete run: range `[0, 1)`, duration 2, no signals. -/
theorem computeWindows_empty_0_1_2 :
    computeWindows [] 0 1 2 = [mkWindow [] 0 0 1] := by
  rw [computeWindows, computeWindowsAux_pos (by norm_num) (by norm_num)]
  norm_num
  rw [computeWindowsAux_neg (by norm_num)]

/-- Concrete run: range `[0, 3)`, duration 2, no signals; the final window is
truncated. -/
theorem computeWindows_empty_0_3_2 :
    computeWindows [] 0 3 2 = [mkWindow [] 0 0 2, mkWindow [] 1 2 3] := by
  rw [computeWindows, computeWindowsAux_pos (by norm_num) (by norm_num)]
  norm_num
  rw [computeWindowsAux_pos (by norm_num) (by norm_num)]
  norm_num
  rw [computeWindowsAux_neg (by norm_num)]

/-- A window over no signals scores zero. -/
theorem mkWindow_empty_score (i : Nat) (s e : Int) : (mkWindow [] i s e).score = 0 := by
  rw [mkWindow_score]
  norm_num [findOverlaps]

/-! ### Claims -/

/-- C1: for every list of signals and every window computed by
`computeWindows`, the window's score equals the minimum of 100 and the sum,
over the signals overlapping the window, of `IMPACT_WEIGHTS impactLevel`
times `CONFIDENCE_MULTIPLIERS confidenceLevel`, where the weights are
low = 10, medium = 30, high = 50 and the multipliers are low = 0.5,
medium = 0.75, high = 1.0. -/
theorem C1_score_is_capped_weighted_sum (signals : List Signal)
    (rangeStart rangeEnd windowDurationMs : Int) (w : OutreachWindow)
    (hw : w ∈ computeWindows signals rangeStart rangeEnd windowDurationMs) :
    w.score = min 100
      (((findOverlaps signals w.timeRange.start w.timeRange.stop).map fun s =>
        IMPACT_WEIGHTS s.impactLevel * CONFIDENCE_MULTIPLIERS s.confidenceLevel).sum) ∧
    IMPACT_WEIGHTS ImpactLevel.low = 10 ∧
    IMPACT_WEIGHTS ImpactLevel.medium = 30 ∧
    IMPACT_WEIGHTS ImpactLevel.high = 50 ∧
    CONFIDENCE_MULTIPLIERS ConfidenceLevel.low = 0.5 ∧
    CONFIDENCE_MULTIPLIERS ConfidenceLevel.medium = 0.75 ∧
    CONFIDENCE_MULTIPLIERS ConfidenceLevel.high = 1.0 := by
  obtain ⟨j, s, _, _, _, rfl⟩ := mem_computeWindowsAux hw
  refine ⟨?_, rfl, rfl, rfl, rfl, rfl, rfl⟩
  rw [mkWindow_score]
  simp only [mkWindow_timeRange]
  rw [foldl_score_eq_sum, zero_add]
  rfl

/-- C1 witness at a concrete input. -/
theorem C1_score_is_capped_weighted_sum_witness :
    (mkWindow [] 0 0 1).score = min 100
      (((findOverlaps [] (mkWindow [] 0 0 1).timeRange.start
          (mkWindow [] 0 0 1).timeRange.stop).map fun s =>
        IMPACT_WEIGHTS s.impactLevel * CONFIDENCE_MULTIPLIERS s.confidenceLevel).sum) ∧
    IMPACT_WEIGHTS ImpactLevel.low = 10 ∧
    IMPACT_WEIGHTS ImpactLevel.medium = 30 ∧
    IMPACT_WEIGHTS ImpactLevel.high = 50 ∧
    CONFIDENCE_MULTIPLIERS ConfidenceLevel.low = 0.5 ∧
    CONFIDENCE_MULTIPLIERS ConfidenceLevel.medium = 0.75 ∧
    CONFIDENCE_MULTIPLIERS ConfidenceLevel.high = 1.0 :=
  C1_score_is_capped_weighted_sum [] 0 1 2 (mkWindow [] 0 0 1)
    (by rw [computeWindows_empty_0_1_2]; exact List.mem_singleton.mpr rfl)

/-- C2: every window returned by `computeWindows` has a score between 0 and
100 inclusive. -/
theorem C2_score_bounds (signals : List Signal)
    (rangeStart rangeEnd windowDurationMs : Int) (w : OutreachWindow)
    (hw : w ∈ computeWindows signals rangeStart rangeEnd windowDurationMs) :
    0 ≤ w.score ∧ w.score ≤ 100 := by
  obtain ⟨j, s, _, _, _, rfl⟩ := mem_computeWindowsAux hw
  rw [mkWindow_score]
  refine ⟨le_min (by norm_num) ?_, min_le_left _ _⟩
  rw [foldl_score_eq_sum, zero_add]
  refine List.sum_nonneg fun x hx => ?_
  obtain ⟨a, _, rfl⟩ := List.mem_map.mp hx
  exact computeSignalScore_nonneg a

/-- C2 witness at a concrete input. -/
theorem C2_score_bounds_witness :
    0 ≤ (mkWindow [] 0 0 1).score ∧ (mkWindow [] 0 0 1).score ≤ 100 :=
  C2_score_bounds [] 0 1 2 (mkWindow [] 0 0 1)
    (by rw [computeWindows_empty_0_1_2]; exact List.mem_singleton.mpr rfl)

/-- C3: every window returned by `computeWindows` is classified by static
thresholds on its score: safer iff score ≤ 20, caution iff 20 < score ≤ 50,
avoid iff score > 50. -/
theorem C3_status_thresholds (signals : List Signal)
    (rangeStart rangeEnd windowDurationMs : Int) (w : OutreachWindow)
    (hw : w ∈ computeWindows signals rangeStart rangeEnd windowDurationMs) :
    (w.status = WindowStatus.safer ↔ w.score ≤ 20) ∧
    (w.status = WindowStatus.caution ↔ 20 < w.score ∧ w.score ≤ 50) ∧
    (w.status = WindowStatus.avoid ↔ 50 < w.score) := by
  obtain ⟨j, s, _, _, _, rfl⟩ := mem_computeWindowsAux hw
  rw [mkWindow_status]
  exact ⟨getStatusFromScore_safer_iff _, getStatusFromScore_caution_iff _,
    getStatusFromScore_avoid_iff _⟩

/-- C3 witness at a concrete input. -/
theorem C3_status_thresholds_witness :
    ((mkWindow [] 0 0 1).status = WindowStatus.safer ↔ (mkWindow [] 0 0 1).score ≤ 20) ∧
    ((mkWindow [] 0 0 1).status = WindowStatus.caution ↔
      20 < (mkWindow [] 0 0 1).score ∧ (mkWindow [] 0 0 1).score ≤ 50) ∧
    ((mkWindow [] 0 0 1).status = WindowStatus.avoid ↔ 50 < (mkWindow [] 0 0 1).score) :=
  C3_status_thresholds [] 0 1 2 (mkWindow [] 0 0 1)
    (by rw [computeWindows_empty_0_1_2]; exact List.mem_singleton.mpr rfl)

/-- Unfolding of the significant-signal filter. -/
theorem detectSignalOverlaps_def (signals : List Signal) :
    detectSignalOverlaps signals = detectLoop (signals.filter fun s =>
      decide (s.impactLevel = ImpactLevel.medium ∨ s.impactLevel = ImpactLevel.high)) := rfl

/-- C4: `detectSignalOverlaps` restricts to medium/high-impact signals and
returns one overlap per index pair `i < j` of that restricted list whose
time ranges intersect; each returned overlap has the intersection as its
time range, the stated combined impact, and two medium/high-impact member
signals. -/
theorem C4_detect_overlaps_pairwise (signals : List Signal) :
    detectSignalOverlaps signals = pairsSpec (signals.filter fun s =>
      decide (s.impactLevel = ImpactLevel.medium ∨ s.impactLevel = ImpactLevel.high)) ∧
    ∀ o ∈ detectSignalOverlaps signals, ∃ a b, a ∈ signals ∧ b ∈ signals ∧
      (a.impactLevel = ImpactLevel.medium ∨ a.impactLevel = ImpactLevel.high) ∧
      (b.impactLevel = ImpactLevel.medium ∨ b.impactLevel = ImpactLevel.high) ∧
      a.timeRange.start < b.timeRange.stop ∧ b.timeRange.start < a.timeRange.stop ∧
      o.timeRange.start = max a.timeRange.start b.timeRange.start ∧
      o.timeRange.stop = min a.timeRange.stop b.timeRange.stop ∧
      o.combinedImpact = (if a.impactLevel = ImpactLevel.high ∨ b.impactLevel = ImpactLevel.high
        then ImpactLevel.high else ImpactLevel.medium) ∧
      o.signals = [a, b] := by
  constructor
  · rw [detectSignalOverlaps_def]
    exact detectLoop_eq_pairsSpec _
  · intro o ho
    rw [detectSignalOverlaps_def] at ho
    obtain ⟨a, b, ha, hb, hchk⟩ := mem_detectLoop ho
    have ha' := List.mem_filter.mp ha
    have hb' := List.mem_filter.mp hb
    obtain ⟨h1, h2, h3, h4, h5, h6⟩ := checkPair_eq_some hchk
    exact ⟨a, b, ha'.1, hb'.1, by simpa using ha'.2, by simpa using hb'.2,
      h1, h2, h3, h4, h5, h6⟩

/-- A concrete high-impact signal over `[0, 10)`. -/
def sigHigh : Signal := testSignal "a" 0 10 ImpactLevel.high ConfidenceLevel.high

/-- A concrete medium-impact signal over `[5, 15)`. -/
def sigMed : Signal := testSignal "b" 5 15 ImpactLevel.medium ConfidenceLevel.low

/-- The overlap record the detector produces for `sigHigh` and `sigMed`. -/
def overlapAB : SignalOverlap :=
  { id := "overlap-a-b"
    signals := [sigHigh, sigMed]
    timeRange := { start := 5, stop := 10 }
    combinedImpact := ImpactLevel.high
    explanation := generateOverlapExplanation sigHigh sigMed }

/-- C4 witness at a concrete input. -/
theorem C4_detect_overlaps_pairwise_witness :
    (detectSignalOverlaps [sigHigh, sigMed] = pairsSpec ([sigHigh, sigMed].filter fun s =>
      decide (s.impactLevel = ImpactLevel.medium ∨ s.impactLevel = ImpactLevel.high))) ∧
    (∃ a b, a ∈ [sigHigh, sigMed] ∧ b ∈ [sigHigh, sigMed] ∧
      (a.impactLevel = ImpactLevel.medium ∨ a.impactLevel = ImpactLevel.high) ∧
      (b.impactLevel = ImpactLevel.medium ∨ b.impactLevel = ImpactLevel.high) ∧
      a.timeRange.start < b.timeRange.stop ∧ b.timeRange.start < a.timeRange.stop ∧
      overlapAB.timeRange.start = max a.timeRange.start b.timeRange.start ∧
      overlapAB.timeRange.stop = min a.timeRange.stop b.timeRange.stop ∧
      overlapAB.combinedImpact =
        (if a.impactLevel = ImpactLevel.high ∨ b.impactLevel = ImpactLevel.high
          then ImpactLevel.high else ImpactLevel.medium) ∧
      overlapAB.signals = [a, b]) :=
  ⟨(C4_detect_overlaps_pairwise [sigHigh, sigMed]).1,
   (C4_detect_overlaps_pairwise [sigHigh, sigMed]).2 overlapAB (by decide)⟩

/-- C5 counterexample: with range `[0, 3)` and duration 2 the second window
is produced with length 1, not 2, so not every window has length equal to
the window-duration parameter. -/
theorem C5_counterexample_truncated_window :
    mkWindow [] 1 2 3 ∈ computeWindows [] 0 3 2 ∧
    (mkWindow [] 1 2 3).timeRange.stop - (mkWindow [] 1 2 3).timeRange.start ≠ 2 := by
  constructor
  · rw [computeWindows_empty_0_3_2]
    simp
  · simp [mkWindow_timeRange]

/-- C5 (amended): every window ends at `min (start + duration, rangeEnd)`,
so every window except possibly the last has length exactly the duration,
only the final window may be truncated, and the default duration is 2
hours. -/
theorem C5_amended_fixed_size_windows (signals : List Signal)
    (rangeStart rangeEnd windowDurationMs : Int) :
    DEFAULT_WINDOW_DURATION_MS = 7200000 ∧
    (∀ w ∈ computeWindows signals rangeStart rangeEnd windowDurationMs,
      w.timeRange.stop = min (w.timeRange.start + windowDurationMs) rangeEnd) ∧
    (∀ (j : Nat)
      (hj1 : j < (computeWindows signals rangeStart rangeEnd windowDurationMs).length)
      (hj2 : j + 1 < (computeWindows signals rangeStart rangeEnd windowDurationMs).length),
      ((computeWindows signals rangeStart rangeEnd windowDurationMs).get
          ⟨j + 1, hj2⟩).timeRange.start
        - ((computeWindows signals rangeStart rangeEnd windowDurationMs).get
          ⟨j, hj1⟩).timeRange.start = windowDurationMs) := by
  have hstop : ∀ w ∈ computeWindows signals rangeStart rangeEnd windowDurationMs,
      w.timeRange.stop = min (w.timeRange.start + windowDurationMs) rangeEnd := by
    intro w hw
    obtain ⟨j, s, _, _, _, rfl⟩ := mem_computeWindowsAux hw
    simp [mkWindow_timeRange]
  refine ⟨rfl, hstop, ?_⟩
  intro j hj1 hj2
  have hch : List.Chain' (fun a b => a.timeRange.stop = b.timeRange.start)
      (computeWindows signals rangeStart rangeEnd windowDurationMs) :=
    chain'_computeWindowsAux signals rangeEnd windowDurationMs rangeStart 0
  have hchain := List.chain'_iff_get.mp hch j (by omega)
  have hmem1 : (computeWindows signals rangeStart rangeEnd windowDurationMs).get ⟨j, hj1⟩
      ∈ computeWindows signals rangeStart rangeEnd windowDurationMs := List.get_mem _ _ _
  have hmem2 : (computeWindows signals rangeStart rangeEnd windowDurationMs).get ⟨j + 1, hj2⟩
      ∈ computeWindows signals rangeStart rangeEnd windowDurationMs := List.get_mem _ _ _
  obtain ⟨j2, s2, _, hs2re, _, hw2⟩ := mem_computeWindowsAux hmem2
  have h1 := hstop _ hmem1
  -- no window but the last can already reach rangeEnd
  have hlt : ((computeWindows signals rangeStart rangeEnd windowDurationMs).get
      ⟨j + 1, hj2⟩).timeRange.start < rangeEnd := by
    rw [hw2]
    simpa [mkWindow_timeRange] using hs2re
  rw [← hchain] at hlt
  rw [h1] at hchain hlt
  rcases le_total (((computeWindows signals rangeStart rangeEnd windowDurationMs).get
      ⟨j, hj1⟩).timeRange.start + windowDurationMs) rangeEnd with hcase | hcase
  · rw [min_eq_left hcase] at hchain
    omega
  · rw [min_eq_right hcase] at hlt
    omega

/-- C5 witness at a concrete input. -/
theorem C5_amended_fixed_size_windows_witness :
    DEFAULT_WINDOW_DURATION_MS = 7200000 ∧
    (∀ w ∈ computeWindows [] 0 3 2,
      w.timeRange.stop = min (w.timeRange.start + 2) 3) ∧
    (∀ (j : Nat) (hj1 : j < (computeWindows [] 0 3 2).length)
      (hj2 : j + 1 < (computeWindows [] 0 3 2).length),
      ((computeWindows [] 0 3 2).get ⟨j + 1, hj2⟩).timeRange.start
        - ((computeWindows [] 0 3 2).get ⟨j, hj1⟩).timeRange.start = 2) :=
  C5_amended_fixed_size_windows [] 0 3 2

/-- C6: a window with no overlapping signals carries the fixed no-disruption
annotation, scores 0 and is safer; otherwise the annotation is the
status-dependent head, the list of impact counts, and the status-dependent
tail. -/
theorem C6_annotation_from_signals_and_status (signals : List Signal)
    (rangeStart rangeEnd windowDurationMs : Int) (w : OutreachWindow)
    (hw : w ∈ computeWindows signals rangeStart rangeEnd windowDurationMs) :
    (w.contributingSignals = [] →
      w.annot = "No known disruptions during this window. Good opportunity for outreach." ∧
      w.score = 0 ∧ w.status = WindowStatus.safer) ∧
    (w.contributingSignals ≠ [] →
      w.annot = claimStatusHead w.status ++
        String.intercalate "; " (claimParts w.contributingSignals) ++
        claimStatusTail w.status) := by
  obtain ⟨j, s, _, _, _, rfl⟩ := mem_computeWindowsAux hw
  rw [mkWindow_contributingSignals]
  constructor
  · intro h0
    have hscore : (mkWindow signals j s (min (s + windowDurationMs) rangeEnd)).score = 0 := by
      rw [mkWindow_score, h0]
      norm_num
    refine ⟨?_, hscore, ?_⟩
    · rw [mkWindow_annot, h0, generateAnnot_nil]
    · rw [mkWindow_status, hscore]
      exact (getStatusFromScore_safer_iff 0).mpr (by norm_num)
  · intro hne
    rw [mkWindow_annot]
    exact generateAnnot_ne_nil _ _ hne

/-- C6 witness at a concrete input. -/
theorem C6_annotation_from_signals_and_status_witness :
    ((mkWindow [] 0 0 1).contributingSignals = [] →
      (mkWindow [] 0 0 1).annot =
        "No known disruptions during this window. Good opportunity for outreach." ∧
      (mkWindow [] 0 0 1).score = 0 ∧ (mkWindow [] 0 0 1).status = WindowStatus.safer) ∧
    ((mkWindow [] 0 0 1).contributingSignals ≠ [] →
      (mkWindow [] 0 0 1).annot = claimStatusHead (mkWindow [] 0 0 1).status ++
        String.intercalate "; " (claimParts (mkWindow [] 0 0 1).contributingSignals) ++
        claimStatusTail (mkWindow [] 0 0 1).status) :=
  C6_annotation_from_signals_and_status [] 0 1 2 (mkWindow [] 0 0 1)
    (by rw [computeWindows_empty_0_1_2]; exact List.mem_singleton.mpr rfl)

/-- C7: the GET handler returns 400 when a provided date parameter does not
parse or the parsed end is not strictly after the parsed start, producing no
signals, overlaps or windows; otherwise it returns 200 with the filtered
signals, their overlaps, the computed windows and the meta echo. -/
theorem C7_route_validation (now today generatedNow : Int)
    (startParam endParam : Option (Option Int)) (scenarioParam : Option String) :
    (routeStart now startParam = none ∨
        routeEnd (routeStart now startParam) endParam = none →
      GET now today generatedNow startParam endParam scenarioParam =
        ApiResult.error 400 "Invalid date format. Use ISO 8601 format.") ∧
    (∀ s e, routeStart now startParam = some s →
        routeEnd (routeStart now startParam) endParam = some e → e ≤ s →
      GET now today generatedNow startParam endParam scenarioParam =
        ApiResult.error 400 "End date must be after start date.") ∧
    (∀ s e, routeStart now startParam = some s →
        routeEnd (routeStart now startParam) endParam = some e → s < e →
      GET now today generatedNow startParam endParam scenarioParam =
        ApiResult.ok 200
          { signals := filterSignalsByDateRange
              (getAllSignals now today (decide (scenarioParam = some "on"))) s e
            overlaps := detectSignalOverlaps (filterSignalsByDateRange
              (getAllSignals now today (decide (scenarioParam = some "on"))) s e)
            windows := computeWindows (filterSignalsByDateRange
              (getAllSignals now today (decide (scenarioParam = some "on"))) s e)
              s e DEFAULT_WINDOW_DURATION_MS
            meta := { queryRange := { start := s, stop := e }
                      scenarioMode := decide (scenarioParam = some "on")
                      generatedAt := generatedNow
                      disclaimer := DISCLAIMER } }) := by
  refine ⟨?_, ?_, ?_⟩
  · intro h
    rcases hs : routeStart now startParam with _ | s
    · simp [GET, hs]
    · rcases he : routeEnd (some s) endParam with _ | e
      · simp [GET, hs, he]
      · rw [hs] at h
        rw [he] at h
        simp at h
  · intro s e hs he hle
    rw [hs] at he
    simp only [GET, hs, he]
    rw [if_pos hle]
  · intro s e hs he hlt
    rw [hs] at he
    simp only [GET, hs, he]
    rw [if_neg (not_le.mpr hlt)]

/-- C7 witness at a concrete input: an unparseable `start` yields 400. -/
theorem C7_route_validation_witness :
    GET 0 0 0 (some none) none none =
      ApiResult.error 400 "Invalid date format. Use ISO 8601 format." :=
  (C7_route_validation 0 0 0 (some none) none none).1 (Or.inl rfl)

/-- C8: with a positive duration, the windows tile the range in order: empty
result iff the range is empty; otherwise the first window starts at
`rangeStart`, each window ends where the next starts, windows are disjoint
and nonempty, and the last window ends exactly at `rangeEnd`. -/
theorem C8_windows_tile_range (signals : List Signal)
    (rangeStart rangeEnd windowDurationMs : Int) (hd : 0 < windowDurationMs) :
    (rangeEnd ≤ rangeStart →
      computeWindows signals rangeStart rangeEnd windowDurationMs = []) ∧
    (rangeStart < rangeEnd →
      computeWindows signals rangeStart rangeEnd windowDurationMs ≠ [] ∧
      ((computeWindows signals rangeStart rangeEnd windowDurationMs).head?.map
        fun w => w.timeRange.start) = some rangeStart ∧
      List.Chain' (fun a b => a.timeRange.stop = b.timeRange.start)
        (computeWindows signals rangeStart rangeEnd windowDurationMs) ∧
      ((computeWindows signals rangeStart rangeEnd windowDurationMs).getLast?.map
        fun w => w.timeRange.stop) = some rangeEnd ∧
      List.Pairwise (fun a b => a.timeRange.stop ≤ b.timeRange.start)
        (computeWindows signals rangeStart rangeEnd windowDurationMs) ∧
      ∀ w ∈ computeWindows signals rangeStart rangeEnd windowDurationMs,
        w.timeRange.start < w.timeRange.stop) := by
  constructor
  · intro h
    exact computeWindowsAux_neg (by omega)
  · intro h
    refine ⟨?_, ?_,
      chain'_computeWindowsAux signals rangeEnd windowDurationMs rangeStart 0, ?_,
      pairwise_computeWindowsAux signals rangeEnd windowDurationMs rangeStart 0, ?_⟩
    · rw [computeWindows, computeWindowsAux_pos h hd]
      exact List.cons_ne_nil _ _
    · rw [computeWindows, head?_computeWindowsAux h hd]
      simp [mkWindow_timeRange]
    · exact getLast?_computeWindowsAux signals rangeEnd windowDurationMs rangeStart 0 h hd
    · intro w hw
      obtain ⟨j, s, _, hsre, _, rfl⟩ := mem_computeWindowsAux hw
      simp only [mkWindow_timeRange]
      exact lt_min (by omega) hsre

/-- C8 witness at a concrete input. -/
theorem C8_windows_tile_range_witness :
    computeWindows [] 0 3 2 ≠ [] ∧
    ((computeWindows [] 0 3 2).head?.map fun w => w.timeRange.start) = some 0 ∧
    List.Chain' (fun a b => a.timeRange.stop = b.timeRange.start) (computeWindows [] 0 3 2) ∧
    ((computeWindows [] 0 3 2).getLast?.map fun w => w.timeRange.stop) = some 3 ∧
    List.Pairwise (fun a b => a.timeRange.stop ≤ b.timeRange.start) (computeWindows [] 0 3 2) ∧
    ∀ w ∈ computeWindows [] 0 3 2, w.timeRange.start < w.timeRange.stop :=
  (C8_windows_tile_range [] 0 3 2 (by norm_num)).2 (by norm_num)

/-- A signal whose range merely touches a window boundary fails the strict
overlap test. -/
theorem not_mem_findOverlaps_of_touching (l : List Signal) (s : Signal) (a b : Int)
    (h : s.timeRange.stop = a ∨ s.timeRange.start = b) :
    s ∉ findOverlaps l a b := by
  intro hmem
  have hc := (List.mem_filter.mp hmem).2
  rw [decide_eq_true_eq] at hc
  rcases h with h | h <;> omega

/-- C9: window membership is strict while range filtering is inclusive: a
signal touching a window boundary is excluded by `findOverlaps` and absent
from that window's contributing signals, while `filterSignalsByDateRange`
retains a signal that merely touches the query boundary. -/
theorem C9_strict_vs_inclusive_boundaries (l : List Signal) (s : Signal) (a b : Int) :
    ((s.timeRange.stop = a ∨ s.timeRange.start = b) → s ∉ findOverlaps l a b) ∧
    (s ∈ l → s.timeRange.start ≤ b → a ≤ s.timeRange.stop →
      s ∈ filterSignalsByDateRange l a b) ∧
    (∀ rangeStart rangeEnd windowDurationMs,
      ∀ w ∈ computeWindows l rangeStart rangeEnd windowDurationMs,
        (s.timeRange.stop = w.timeRange.start ∨ s.timeRange.start = w.timeRange.stop) →
        s ∉ w.contributingSignals) := by
  refine ⟨not_mem_findOverlaps_of_touching l s a b, ?_, ?_⟩
  · intro hmem h1 h2
    exact List.mem_filter.mpr ⟨hmem, by rw [decide_eq_true_eq]; exact ⟨h1, h2⟩⟩
  · intro rangeStart rangeEnd windowDurationMs w hw htouch
    obtain ⟨j, t, _, _, _, rfl⟩ := mem_computeWindowsAux hw
    rw [mkWindow_contributingSignals]
    simp only [mkWindow_timeRange] at htouch
    exact not_mem_findOverlaps_of_touching l s _ _ htouch

/-- A concrete signal over `[1, 5)` for exercising boundary cases. -/
def sigTouch : Signal := testSignal "t" 1 5 ImpactLevel.low ConfidenceLevel.low

/-- C9 witness at concrete inputs: touching `[5, 9)` from the left is
excluded by `findOverlaps` but kept by `filterSignalsByDateRange`, and
touching the window `[0, 1)` is excluded from its contributing signals. -/
theorem C9_strict_vs_inclusive_boundaries_witness :
    sigTouch ∉ findOverlaps [sigTouch] 5 9 ∧
    sigTouch ∈ filterSignalsByDateRange [sigTouch] 5 9 ∧
    sigTouch ∉ (mkWindow [] 0 0 1).contributingSignals :=
  ⟨(C9_strict_vs_inclusive_boundaries [sigTouch] sigTouch 5 9).1 (Or.inl rfl),
   (C9_strict_vs_inclusive_boundaries [sigTouch] sigTouch 5 9).2.1
     (List.mem_singleton.mpr rfl) (by decide) (by decide),
   (C9_strict_vs_inclusive_boundaries [] sigTouch 5 9).2.2 0 1 2 (mkWindow [] 0 0 1)
     (by rw [computeWindows_empty_0_1_2]; exact List.mem_singleton.mpr rfl) (Or.inr rfl)⟩

/-- C10: scenario mode only appends: without it `getAllSignals` is exactly
the base signals, with it exactly the base signals followed by the
mega-event signals, all of which have signal type `megaEvent`. -/
theorem C10_scenario_only_appends (now today : Int) :
    getAllSignals now today false = getBaseSignals now today ∧
    getAllSignals now today true = getBaseSignals now today ++ megaEventSignals today ∧
    ∀ s ∈ megaEventSignals today, s.signalType = SignalType.megaEvent := by
  refine ⟨rfl, rfl, ?_⟩
  intro s hs
  simp only [megaEventSignals, List.mem_cons, List.not_mem_nil, or_false] at hs
  rcases hs with rfl | rfl | rfl <;> rfl

/-- C10 witness at a concrete input. -/
theorem C10_scenario_only_appends_witness :
    getAllSignals 0 0 false = getBaseSignals 0 0 ∧
    getAllSignals 0 0 true = getBaseSignals 0 0 ++ megaEventSignals 0 ∧
    ((megaEventSignals 0).getD 0 sigTouch).signalType = SignalType.megaEvent :=
  ⟨(C10_scenario_only_appends 0 0).1, (C10_scenario_only_appends 0 0).2.1,
   (C10_scenario_only_appends 0 0).2.2 _ (by decide)⟩

end Outreach
